import Mathlib

/-!
Shallow embedding of the CarCo payments subsystem (payments/models.py,
payments/serializers.py, payments/views.py, payments/sslcommerz.py).

Money amounts (Django DecimalField with 2 places) are modelled as rationals;
the operations under study only add, subtract, take minima and divide by 100,
all of which Python Decimal performs exactly on the inputs of interest.
Timestamps (timezone.now()) are modelled as natural numbers supplied by the
caller.  Database rows live in lists inside a Store record; Django object
saves are modelled by replacing the matching list entry.
-/

namespace CarCo

/-- Status choices of payments.models.Order.ORDER_STATUS_CHOICES. -/
inductive OrderStatus
  | pending
  | confirmed
  | processing
  | shipped
  | delivered
  | cancelled
  | refunded
deriving DecidableEq, Repr

/-- Status choices of payments.models.Payment.PAYMENT_STATUS_CHOICES. -/
inductive PaymentStatus
  | pending
  | processing
  | completed
  | failed
  | cancelled
  | refunded
deriving DecidableEq, Repr

/-- Status choices of payments.models.Refund.REFUND_STATUS_CHOICES. -/
inductive RefundStatus
  | pending
  | approved
  | processing
  | completed
  | rejected
deriving DecidableEq, Repr

/-- Transaction type choices of payments.models.WalletTransaction. -/
inductive TxnType
  | credit
  | debit
deriving DecidableEq, Repr

/-- Discount type choices of payments.models.Discount. -/
inductive DiscountType
  | percentage
  | fixed
deriving DecidableEq, Repr

/-- Status choices of payments.models.Discount. -/
inductive DiscountStatus
  | active
  | inactive
  | expired
deriving DecidableEq, Repr

/-- Error outcomes of the DRF view layer: HTTP 403, HTTP 400, HTTP 404. -/
inductive ApiError
  | permissionDenied
  | badRequest
  | notFound
deriving DecidableEq, Repr

/-- Python truthiness of an optional string (None and the empty string are
falsy), as used by `if tracking_number:` in Order.mark_as_shipped. -/
def optStrTruthy : Option String → Bool
  | none => false
  | some s => decide (s ≠ "")

/-- Python truthiness of an optional Decimal (None and 0 are falsy), as used
by `if self.max_discount_amount:` in Discount.calculate_discount. -/
def optRatTruthy : Option ℚ → Bool
  | none => false
  | some c => decide (c ≠ 0)

/-- Python truthiness of an optional integer (None and 0 are falsy), as used
by `if self.max_uses ...` in Discount.is_valid. -/
def optIntTruthy : Option Int → Bool
  | none => false
  | some n => decide (n ≠ 0)

/-- Order row (payments.models.Order).  Buyer and seller are user ids; the
address and note columns are inert text not read by any embedded operation
and are omitted. -/
structure Order where
  buyer : Nat
  seller : Nat
  order_number : String
  item_name : String
  quantity : Int
  unit_price : ℚ
  subtotal : ℚ
  tax_amount : ℚ
  shipping_cost : ℚ
  discount_amount : ℚ
  total_amount : ℚ
  status : OrderStatus
  tracking_number : Option String
  tracking_url : Option String
  confirmed_at : Option Nat
  shipped_at : Option Nat
  delivered_at : Option Nat
  cancelled_at : Option Nat
deriving DecidableEq, Repr

/-- Order.calculate_total: sets total_amount from the pricing breakdown and
returns the updated row (the source mutates in place and returns the total). -/
def Order.calculate_total (o : Order) : Order :=
  { o with total_amount := o.subtotal + o.tax_amount + o.shipping_cost - o.discount_amount }

/-- Order.mark_as_confirmed: unconditionally sets status and timestamp. -/
def Order.mark_as_confirmed (now : Nat) (o : Order) : Order :=
  { o with status := .confirmed, confirmed_at := some now }

/-- Order.mark_as_shipped: unconditionally sets status and timestamp; the
tracking fields are overwritten only when the arguments are truthy. -/
def Order.mark_as_shipped (now : Nat) (tn tu : Option String) (o : Order) : Order :=
  { o with status := .shipped, shipped_at := some now,
           tracking_number := if optStrTruthy tn then tn else o.tracking_number,
           tracking_url := if optStrTruthy tu then tu else o.tracking_url }

/-- Order.mark_as_delivered: unconditionally sets status and timestamp. -/
def Order.mark_as_delivered (now : Nat) (o : Order) : Order :=
  { o with status := .delivered, delivered_at := some now }

/-- Order.cancel_order: unconditionally sets status and timestamp. -/
def Order.cancel_order (now : Nat) (o : Order) : Order :=
  { o with status := .cancelled, cancelled_at := some now }

/-- Raw client payload for order creation.  total_amount is what the client
may have submitted for that column; OrderCreateSerializer.Meta.fields does
not list total_amount, so serializer validation drops it and it never reaches
validated_data. -/
structure OrderCreateRequest where
  item_name : String
  quantity : Int
  unit_price : ℚ
  subtotal : ℚ
  tax_amount : ℚ
  shipping_cost : ℚ
  discount_amount : ℚ
  total_amount : Option ℚ
deriving DecidableEq, Repr

/-- OrderCreateSerializer.create: builds the Order from validated_data (which
excludes any client-submitted total_amount), with buyer taken from the
request, a generated order_number (passed in here, the source draws a uuid),
seller resolved by the view, status defaulting to pending, and total_amount
computed by Order.calculate_total before save.  The 0 placed in total_amount
stands for the unset column before calculate_total overwrites it. -/
def OrderCreateSerializer.create (buyer seller : Nat) (order_number : String)
    (req : OrderCreateRequest) : Order :=
  let o : Order :=
    { buyer := buyer
      seller := seller
      order_number := order_number
      item_name := req.item_name
      quantity := req.quantity
      unit_price := req.unit_price
      subtotal := req.subtotal
      tax_amount := req.tax_amount
      shipping_cost := req.shipping_cost
      discount_amount := req.discount_amount
      total_amount := 0
      status := .pending
      tracking_number := none
      tracking_url := none
      confirmed_at := none
      shipped_at := none
      delivered_at := none
      cancelled_at := none }
  o.calculate_total

/-- OrderViewSet.confirm: 403 unless the caller is the buyer, 400 unless the
order is pending, else Order.mark_as_confirmed. -/
def OrderViewSet.confirm (user now : Nat) (o : Order) : Except ApiError Order :=
  if o.buyer ≠ user then .error .permissionDenied
  else if o.status ≠ .pending then .error .badRequest
  else .ok (o.mark_as_confirmed now)

/-- OrderViewSet.ship: 403 unless the caller is the seller; no status check of
any kind, then Order.mark_as_shipped. -/
def OrderViewSet.ship (user now : Nat) (tn tu : Option String) (o : Order) :
    Except ApiError Order :=
  if o.seller ≠ user then .error .permissionDenied
  else .ok (o.mark_as_shipped now tn tu)

/-- OrderViewSet.deliver: 403 unless the caller is the buyer; no status check
of any kind, then Order.mark_as_delivered. -/
def OrderViewSet.deliver (user now : Nat) (o : Order) : Except ApiError Order :=
  if o.buyer ≠ user then .error .permissionDenied
  else .ok (o.mark_as_delivered now)

/-- OrderViewSet.cancel: 403 unless the caller is buyer or seller, 400 unless
the order is pending or confirmed, else Order.cancel_order. -/
def OrderViewSet.cancel (user now : Nat) (o : Order) : Except ApiError Order :=
  if o.buyer ≠ user ∧ o.seller ≠ user then .error .permissionDenied
  else if o.status ≠ .pending ∧ o.status ≠ .confirmed then .error .badRequest
  else .ok (o.cancel_order now)

/-- Pricing slice of a PATCH/PUT payload for the inherited update endpoint.
OrderSerializer.Meta.fields leaves subtotal, tax_amount, shipping_cost,
discount_amount and total_amount client-writable (none is in
read_only_fields; further writable columns such as status and the addresses
are inert to the pricing invariant and omitted here).  Keys absent from a
PATCH are none. -/
structure OrderUpdateRequest where
  subtotal : Option ℚ
  tax_amount : Option ℚ
  shipping_cost : Option ℚ
  discount_amount : Option ℚ
  total_amount : Option ℚ
deriving DecidableEq, Repr

/-- ModelSerializer.update as inherited by OrderSerializer: each submitted
field value is set on the instance verbatim and the row is saved;
Order.calculate_total is never invoked on this path (only
OrderCreateSerializer.create calls it). -/
def OrderSerializer.update (req : OrderUpdateRequest) (o : Order) : Order :=
  { o with
      subtotal := req.subtotal.getD o.subtotal,
      tax_amount := req.tax_amount.getD o.tax_amount,
      shipping_cost := req.shipping_cost.getD o.shipping_cost,
      discount_amount := req.discount_amount.getD o.discount_amount,
      total_amount := req.total_amount.getD o.total_amount }

/-- OrderViewSet.partial_update, inherited from ModelViewSet: get_object
resolves the order inside the buyer-or-seller queryset (404 for anyone
else; the only permission class is IsAuthenticated), then
OrderSerializer.update saves the submitted values. -/
def OrderViewSet.partial_update (user : Nat) (req : OrderUpdateRequest) (o : Order) :
    Except ApiError Order :=
  if o.buyer ≠ user ∧ o.seller ≠ user then .error .notFound
  else .ok (OrderSerializer.update req o)

/-- Wallet row (payments.models.Wallet), keyed by its owning user id. -/
structure Wallet where
  user : Nat
  balance : ℚ
  total_earned : ℚ
  total_spent : ℚ
deriving DecidableEq, Repr

/-- WalletTransaction row (payments.models.WalletTransaction); wallet_user
stands for the wallet foreign key. -/
structure WalletTransaction where
  wallet_user : Nat
  transaction_type : TxnType
  amount : ℚ
  description : String
deriving DecidableEq, Repr

/-- Wallet.add_balance: adds amount to balance and total_earned, saves, and
creates one credit WalletTransaction; returns the updated wallet and the new
transaction row. -/
def Wallet.add_balance (w : Wallet) (amount : ℚ) (description : String) :
    Wallet × WalletTransaction :=
  ({ w with balance := w.balance + amount, total_earned := w.total_earned + amount },
   { wallet_user := w.user, transaction_type := .credit, amount := amount,
     description := description })

/-- Wallet.deduct_balance: when balance is at least amount, subtracts it from
balance, adds it to total_spent, creates one debit WalletTransaction and
returns True; otherwise returns False, mutating nothing and creating no
transaction.  The Bool is the source's return value. -/
def Wallet.deduct_balance (w : Wallet) (amount : ℚ) (description : String) :
    Bool × Wallet × Option WalletTransaction :=
  if w.balance ≥ amount then
    (true,
     { w with balance := w.balance - amount, total_spent := w.total_spent + amount },
     some { wallet_user := w.user, transaction_type := .debit, amount := amount,
            description := description })
  else (false, w, none)

/-- One invocation of a wallet mutator, for reasoning about sequences. -/
inductive WalletOp
  | add (amount : ℚ) (description : String)
  | deduct (amount : ℚ) (description : String)
deriving DecidableEq, Repr

/-- Apply one wallet operation to a wallet and its transaction log, appending
the created transaction (if any) to the log. -/
def applyWalletOp (st : Wallet × List WalletTransaction) (op : WalletOp) :
    Wallet × List WalletTransaction :=
  match op with
  | .add a d =>
      let r := st.1.add_balance a d
      (r.1, st.2 ++ [r.2])
  | .deduct a d =>
      match st.1.deduct_balance a d with
      | (_, w, some t) => (w, st.2 ++ [t])
      | (_, w, none) => (w, st.2)

/-- Run a sequence of wallet operations from a freshly created wallet of user
u (balance, total_earned and total_spent all default to 0) with an empty
transaction log. -/
def runWalletOps (u : Nat) (ops : List WalletOp) : Wallet × List WalletTransaction :=
  ops.foldl applyWalletOp ({ user := u, balance := 0, total_earned := 0, total_spent := 0 }, [])

/-- Replay a transaction log from zero: credits are added, debits subtracted. -/
def replayLog (log : List WalletTransaction) : ℚ :=
  log.foldl
    (fun acc t =>
      match t.transaction_type with
      | .credit => acc + t.amount
      | .debit => acc - t.amount)
    0

/-- Raw POST data of an SSL Commerz callback, as read by
SSLCommerczPaymentGateway.handle_payment_success via request_data.get: the
keys may be absent.  The status key is read by the handler but never used. -/
structure CallbackData where
  tran_id : Option String
  val_id : Option String
  status : Option String
deriving DecidableEq, Repr

/-- Payment row (payments.models.Payment); order_number stands for the
one-to-one order foreign key, and gateway_response for the stored raw
callback payload (empty dict initially, hence Option). -/
structure PaymentRec where
  order_number : String
  payment_method : String
  amount : ℚ
  status : PaymentStatus
  transaction_id : Option String
  gateway_response : Option CallbackData
  error_message : Option String
  processed_at : Option Nat
deriving DecidableEq, Repr

/-- Payment.mark_as_completed: sets status and processed_at on the payment,
then confirms the associated order; touches nothing else. -/
def PaymentRec.mark_as_completed (now : Nat) (p : PaymentRec) (o : Order) :
    PaymentRec × Order :=
  ({ p with status := .completed, processed_at := some now }, o.mark_as_confirmed now)

/-- Refund row (payments.models.Refund); order_number stands for the order
foreign key and id for the primary key used by get_object. -/
structure Refund where
  id : Nat
  order_number : String
  refund_reason : String
  refund_amount : ℚ
  refund_percentage : Int
  status : RefundStatus
  reason_description : String
  approved_at : Option Nat
  completed_at : Option Nat
deriving DecidableEq, Repr

/-- Discount row (payments.models.Discount).  valid_from and valid_until are
instants on the same clock as now in is_valid. -/
structure Discount where
  code : String
  discount_type : DiscountType
  discount_value : ℚ
  max_discount_amount : Option ℚ
  min_order_amount : ℚ
  max_uses : Option Int
  max_uses_per_user : Int
  status : DiscountStatus
  valid_from : Int
  valid_until : Int
  times_used : Int
deriving DecidableEq, Repr

/-- Discount.is_valid: false when status is not active, when now lies outside
the validity window, or when max_uses is truthy (set and non-zero, by Python
truthiness) and times_used has reached it. -/
def Discount.is_valid (now : Int) (d : Discount) : Bool :=
  if d.status ≠ .active then false
  else if now < d.valid_from ∨ now > d.valid_until then false
  else if optIntTruthy d.max_uses ∧ d.times_used ≥ d.max_uses.getD 0 then false
  else true

/-- Discount.calculate_discount: percentage type yields amount times value
over 100, capped by min with max_discount_amount only when that field is
truthy (set and non-zero); fixed type yields discount_value verbatim. -/
def Discount.calculate_discount (amount : ℚ) (d : Discount) : ℚ :=
  match d.discount_type with
  | .percentage =>
      let disc := (amount * d.discount_value) / 100
      if optRatTruthy d.max_discount_amount then min disc (d.max_discount_amount.getD 0)
      else disc
  | .fixed => d.discount_value

/-- Database state visible to the request handlers: one list per table that
the embedded operations read or write. -/
structure Store where
  orders : List Order
  payments : List PaymentRec
  refunds : List Refund
  wallets : List Wallet
  wallet_txns : List WalletTransaction
deriving DecidableEq, Repr

/-- Replace the first list entry satisfying p by its image under f, modelling
a Django save of the row fetched by a get/filter().first() with predicate p
(unique keys make the first match the only match). -/
def replaceFirst {α : Type} (p : α → Bool) (f : α → α) : List α → List α
  | [] => []
  | x :: xs => if p x then f x :: xs else x :: replaceFirst p f xs

/-- Outcome dictionary of handle_payment_success, reduced to its variants:
the success dict, and the three error dicts (order not found, payment record
not found, gateway validation failed). -/
inductive GatewayResult
  | processed (order_number : String)
  | orderNotFound
  | paymentRecordNotFound
  | validationFailed
deriving DecidableEq, Repr

/-- SSLCommerczPaymentGateway.handle_payment_success.  The outbound
validate_payment call is a network request; it is abstracted as the oracle
validate, returning the pair (success flag, status string) that the handler
reads from the validation dict (the status key is only read when the flag is
true, matching the short-circuit in the source).  The handler looks the
order up by order_number = tran_id; on validated success it completes the
payment (status, transaction_id := val_id, raw payload, processed_at) and
confirms the order; every other path returns the store unchanged. -/
def handle_payment_success (validate : Option String → Bool × String) (now : Nat)
    (data : CallbackData) (s : Store) : GatewayResult × Store :=
  match s.orders.find? (fun o => data.tran_id == some o.order_number) with
  | none => (.orderNotFound, s)
  | some order =>
      let v := validate data.val_id
      if v.1 = true ∧ v.2 = "VALID" then
        match s.payments.find? (fun p => p.order_number == order.order_number) with
        | some _ =>
            (.processed order.order_number,
             { s with
                 payments := replaceFirst (fun p => p.order_number == order.order_number)
                   (fun p => { p with status := .completed, transaction_id := data.val_id,
                                      gateway_response := some data,
                                      processed_at := some now }) s.payments,
                 orders := replaceFirst (fun o => data.tran_id == some o.order_number)
                   (fun o => o.mark_as_confirmed now) s.orders })
        | none => (.paymentRecordNotFound, s)
      else (.validationFailed, s)

/-- Client payload for refund creation (RefundCreateSerializer.Meta.fields);
order names the order foreign key by its order_number.  The payment foreign
key the client must also submit is overridden by the view with the payment
it resolves itself, so it is omitted here. -/
structure RefundCreateRequest where
  order : String
  refund_reason : String
  refund_amount : ℚ
  refund_percentage : Int
  reason_description : String
deriving DecidableEq, Repr

/-- RefundViewSet.create: serializer validation resolves the order foreign
key (400 when it does not exist), then 403 unless the caller is the buyer,
then 400 unless a payment exists for the order; finally the refund row is
saved with default status pending.  No check whatsoever relates
refund_amount to the order total or to prior refunds.  The fresh primary key
is modelled as the current number of refund rows. -/
def RefundViewSet.create (user : Nat) (req : RefundCreateRequest) (s : Store) :
    Except ApiError (Refund × Store) :=
  match s.orders.find? (fun o => o.order_number == req.order) with
  | none => .error .badRequest
  | some order =>
      if order.buyer ≠ user then .error .permissionDenied
      else
        match s.payments.find? (fun p => p.order_number == order.order_number) with
        | none => .error .badRequest
        | some _ =>
            let r : Refund :=
              { id := s.refunds.length
                order_number := order.order_number
                refund_reason := req.refund_reason
                refund_amount := req.refund_amount
                refund_percentage := req.refund_percentage
                status := .pending
                reason_description := req.reason_description
                approved_at := none
                completed_at := none }
            .ok (r, { s with refunds := s.refunds ++ [r] })

/-- Sum of the refund_amount column over all refund rows of one order. -/
def refundSum (s : Store) (order_number : String) : ℚ :=
  ((s.refunds.filter (fun r => r.order_number == order_number)).map
    (fun r => r.refund_amount)).sum

/-- Refund.approve_refund: sets status approved and stamps approved_at. -/
def Refund.approve_refund (now : Nat) (r : Refund) : Refund :=
  { r with status := .approved, approved_at := some now }

/-- RefundViewSet.complete: fetches the refund by primary key (404 when
absent), 403 unless the caller is staff, then Refund.complete_refund: the
refund gets status completed and completed_at, and the associated order's
status is assigned refunded directly and saved.  No wallet row and no
wallet transaction row is read or written anywhere on this path. -/
def RefundViewSet.complete (is_staff : Bool) (now : Nat) (rid : Nat) (s : Store) :
    Except ApiError Store :=
  match s.refunds.find? (fun r => r.id == rid) with
  | none => .error .notFound
  | some r =>
      if is_staff = false then .error .permissionDenied
      else
        .ok { s with
                refunds := replaceFirst (fun x => x.id == rid)
                  (fun x => { x with status := .completed, completed_at := some now })
                  s.refunds,
                orders := replaceFirst (fun o => o.order_number == r.order_number)
                  (fun o => { o with status := .refunded }) s.orders }

/-- Pricing invariant of an Order row: the stored total equals the breakdown
sum subtotal + tax + shipping - discount. -/
def orderTotalInv (o : Order) : Prop :=
  o.total_amount = o.subtotal + o.tax_amount + o.shipping_cost - o.discount_amount

/-- Value of an Except when it succeeded, none on error. -/
def okValue {ε α : Type} : Except ε α → Option α
  | .ok a => some a
  | .error _ => none

/-- Ledger invariant of a wallet with its transaction log: the cached balance
agrees with total_earned - total_spent and with a replay of the log. -/
def walletLedgerInv (st : Wallet × List WalletTransaction) : Prop :=
  st.1.balance = st.1.total_earned - st.1.total_spent ∧ replayLog st.2 = st.1.balance

/-- Pending order fixture, mirroring the repository test fixture: subtotal
300, tax 45, shipping 20, no discount, total 365, buyer 1, seller 2. -/
def wOrder : Order :=
  { buyer := 1, seller := 2, order_number := "ORD-1", item_name := "Brake Pads",
    quantity := 2, unit_price := 150, subtotal := 300, tax_amount := 45,
    shipping_cost := 20, discount_amount := 0, total_amount := 365,
    status := .pending, tracking_number := none, tracking_url := none,
    confirmed_at := none, shipped_at := none, delivered_at := none,
    cancelled_at := none }

/-- The fixture order after a confirm. -/
def wConfirmedOrder : Order := { wOrder with status := .confirmed, confirmed_at := some 3 }

/-- The fixture order after a ship. -/
def wShippedOrder : Order := { wOrder with status := .shipped, shipped_at := some 4 }

/-- The fixture order after a delivery. -/
def wDeliveredOrder : Order := { wOrder with status := .delivered, delivered_at := some 5 }

/-- Order-creation payload fixture; the client also smuggles a bogus
total_amount of 1, which the serializer must drop. -/
def wReq : OrderCreateRequest :=
  { item_name := "Brake Pads", quantity := 2, unit_price := 150, subtotal := 300,
    tax_amount := 45, shipping_cost := 20, discount_amount := 0,
    total_amount := some 1 }

/-- PATCH payload fixture submitting only total_amount = 1. -/
def wPatch : OrderUpdateRequest :=
  { subtotal := none, tax_amount := none, shipping_cost := none,
    discount_amount := none, total_amount := some 1 }

/-- Wallet fixture with balance 100. -/
def wWallet : Wallet := { user := 2, balance := 100, total_earned := 100, total_spent := 0 }

/-- Seller wallet fixture with balance 500. -/
def wSellerWallet500 : Wallet := { user := 2, balance := 500, total_earned := 500, total_spent := 0 }

/-- Pending payment row fixture for the fixture order. -/
def wPayment : PaymentRec :=
  { order_number := "ORD-1", payment_method := "sslcommerz", amount := 365,
    status := .pending, transaction_id := some "TXN-1", gateway_response := none,
    error_message := none, processed_at := none }

/-- Success-callback payload fixture naming the fixture order. -/
def wCallback : CallbackData :=
  { tran_id := some "ORD-1", val_id := some "VAL-1", status := some "VALID" }

/-- Validation oracle fixture: the gateway confirms the payment as VALID. -/
def wValidate : Option String → Bool × String := fun _ => (true, "VALID")

/-- Store fixture: the pending fixture order with its pending payment, an
empty refund table, the seller's empty wallet and an empty transaction log. -/
def wStore : Store :=
  { orders := [wOrder], payments := [wPayment], refunds := [],
    wallets := [{ user := 2, balance := 0, total_earned := 0, total_spent := 0 }],
    wallet_txns := [] }

/-- Refund-creation payload fixture asking for 1000000 against the 365-total
fixture order. -/
def wRefundReq : RefundCreateRequest :=
  { order := "ORD-1", refund_reason := "other", refund_amount := 1000000,
    refund_percentage := 100, reason_description := "overdraw attempt" }

/-- The refund row RefundViewSet.create builds from wRefundReq in wStore. -/
def wOverRefund : Refund :=
  { id := 0, order_number := "ORD-1", refund_reason := "other",
    refund_amount := 1000000, refund_percentage := 100, status := .pending,
    reason_description := "overdraw attempt", approved_at := none,
    completed_at := none }

/-- Approved refund fixture of 150 against the fixture order. -/
def wApprovedRefund : Refund :=
  { id := 0, order_number := "ORD-1", refund_reason := "item_defective",
    refund_amount := 150, refund_percentage := 50, status := .approved,
    reason_description := "broken on arrival", approved_at := some 5,
    completed_at := none }

/-- Store fixture at refund-completion time: confirmed order, approved refund
of 150, seller wallet holding 500, no transactions yet. -/
def wRefStore : Store :=
  { orders := [wConfirmedOrder], payments := [wPayment],
    refunds := [wApprovedRefund], wallets := [wSellerWallet500],
    wallet_txns := [] }

/-- Percentage discount fixture: 20 percent off, no cap. -/
def wPerc : Discount :=
  { code := "SAVE20", discount_type := .percentage, discount_value := 20,
    max_discount_amount := none, min_order_amount := 0, max_uses := some 100,
    max_uses_per_user := 1, status := .active, valid_from := 0,
    valid_until := 100, times_used := 0 }

/-- The wPerc fixture with a 150 cap. -/
def wPercCap : Discount := { wPerc with code := "SAVE20CAP", max_discount_amount := some 150 }

/-- Fixed discount fixture: 50 off. -/
def wFixed50 : Discount :=
  { wPerc with code := "FLAT50", discount_type := .fixed, discount_value := 50 }

/-- Discount fixture whose max_uses is stored as 0 while times_used is 5. -/
def wZeroUses : Discount := { wPerc with code := "ZERO", max_uses := some 0, times_used := 5 }

/-- Percentage discount fixture whose max_discount_amount is stored as 0. -/
def wZeroCap : Discount := { wPerc with code := "ZEROCAP", max_discount_amount := some 0 }

/-- Success-callback payload fixture naming an order that does not exist. -/
def wBadCallback : CallbackData :=
  { tran_id := some "ORD-404", val_id := some "VAL-1", status := some "VALID" }

/-- Validation oracle fixture: the gateway rejects the payment. -/
def wFailValidate : Option String → Bool × String := fun _ => (false, "ERROR")

/-- The store RefundViewSet.complete produces from wRefStore: refund
completed, order refunded, wallets and transaction log untouched. -/
def wRefStoreAfter : Store :=
  { orders := [{ wConfirmedOrder with status := .refunded }], payments := [wPayment],
    refunds := [{ wApprovedRefund with status := .completed, completed_at := some 9 }],
    wallets := [wSellerWallet500], wallet_txns := [] }

/-- C1 counterexample: a PATCH by the buyer submitting total_amount = 1 on
the 365-total fixture order is stored verbatim without recomputation,
breaking the pricing invariant that held before the mutation. -/
theorem patch_total_breaks_invariant_counterexample :
    okValue (OrderViewSet.partial_update 1 wPatch wOrder) =
      some { wOrder with total_amount := 1 } ∧
    orderTotalInv wOrder ∧
    ¬ orderTotalInv ({ wOrder with total_amount := 1 }) := by
  refine ⟨rfl, by norm_num [orderTotalInv, wOrder], ?_⟩
  norm_num [orderTotalInv, wOrder]

/-- C1 amended: total = subtotal + tax + shipping - discount holds after
creation, where the server recomputes the total via calculate_total and
discards any client-submitted total, and after each of the four named
transitions, which leave pricing untouched; but the inherited
update/partial_update endpoint saves client-submitted pricing fields,
total_amount included, verbatim and never recomputes, so that path can
break the invariant. -/
theorem order_total_recomputed_on_create_not_update
    (buyer seller user : Nat) (onum : String) (req : OrderCreateRequest) (ct : Option ℚ)
    (now : Nat) (tn tu : Option String) (o : Order) (upd : OrderUpdateRequest) (t : ℚ)
    (h : orderTotalInv o) :
    orderTotalInv (OrderCreateSerializer.create buyer seller onum req) ∧
    OrderCreateSerializer.create buyer seller onum { req with total_amount := ct } =
      OrderCreateSerializer.create buyer seller onum req ∧
    orderTotalInv (o.mark_as_confirmed now) ∧
    orderTotalInv (Order.mark_as_shipped now tn tu o) ∧
    orderTotalInv (o.mark_as_delivered now) ∧
    orderTotalInv (o.cancel_order now) ∧
    (upd.total_amount = some t → (OrderSerializer.update upd o).total_amount = t) ∧
    (o.buyer = user →
      OrderViewSet.partial_update user upd o = .ok (OrderSerializer.update upd o)) := by
  refine ⟨rfl, rfl, h, h, h, h, ?_, ?_⟩
  · intro ht
    simp [OrderSerializer.update, ht]
  · intro hb
    simp [OrderViewSet.partial_update, hb]

/-- Witness for C1 amended at the 300 + 45 + 20 - 0 = 365 fixture, with the
PATCH payload submitting total_amount = 1. -/
theorem order_total_recomputed_on_create_not_update_witness :
    orderTotalInv (OrderCreateSerializer.create 1 2 "ORD-9" wReq) ∧
    OrderCreateSerializer.create 1 2 "ORD-9" { wReq with total_amount := none } =
      OrderCreateSerializer.create 1 2 "ORD-9" wReq ∧
    orderTotalInv (wOrder.mark_as_confirmed 3) ∧
    orderTotalInv (Order.mark_as_shipped 3 none none wOrder) ∧
    orderTotalInv (wOrder.mark_as_delivered 3) ∧
    orderTotalInv (wOrder.cancel_order 3) ∧
    (OrderSerializer.update wPatch wOrder).total_amount = 1 ∧
    OrderViewSet.partial_update 1 wPatch wOrder =
      .ok (OrderSerializer.update wPatch wOrder) := by
  have h := order_total_recomputed_on_create_not_update 1 2 1 "ORD-9" wReq none 3
    none none wOrder wPatch 1 (by norm_num [orderTotalInv, wOrder])
  exact ⟨h.1, h.2.1, h.2.2.1, h.2.2.2.1, h.2.2.2.2.1, h.2.2.2.2.2.1,
         h.2.2.2.2.2.2.1 rfl, h.2.2.2.2.2.2.2 rfl⟩

/-- C5: deduct_balance refuses a debit exceeding the balance, mutating
nothing and creating no transaction, and a covered debit decrements balance,
increments total_spent and creates exactly one debit transaction. -/
theorem deduct_balance_no_partial_debit (w : Wallet) (amount : ℚ) (d : String)
    (_hpos : 0 < amount) :
    (w.balance < amount → w.deduct_balance amount d = (false, w, none)) ∧
    (amount ≤ w.balance →
      w.deduct_balance amount d =
        (true,
         { w with balance := w.balance - amount, total_spent := w.total_spent + amount },
         some { wallet_user := w.user, transaction_type := .debit, amount := amount,
                description := d })) := by
  constructor
  · intro hlt
    unfold Wallet.deduct_balance
    rw [if_neg (not_le.mpr hlt)]
  · intro hge
    unfold Wallet.deduct_balance
    rw [if_pos hge]

/-- Witness for C5: a 150 debit on a 100 balance fails without a record, a
30 debit succeeds with one debit record. -/
theorem deduct_balance_no_partial_debit_witness :
    wWallet.deduct_balance 150 "over" = (false, wWallet, none) ∧
    wWallet.deduct_balance 30 "ok" =
      (true,
       { wWallet with balance := wWallet.balance - 30,
                      total_spent := wWallet.total_spent + 30 },
       some { wallet_user := wWallet.user, transaction_type := .debit, amount := 30,
              description := "ok" }) :=
  ⟨(deduct_balance_no_partial_debit wWallet 150 "over" (by norm_num)).1
      (by norm_num [wWallet]),
   (deduct_balance_no_partial_debit wWallet 30 "ok" (by norm_num)).2
      (by norm_num [wWallet])⟩

/-- Replaying a log extended by one transaction adds a credit or subtracts a
debit at the end. -/
theorem replayLog_append (l : List WalletTransaction) (t : WalletTransaction) :
    replayLog (l ++ [t]) =
      match t.transaction_type with
      | .credit => replayLog l + t.amount
      | .debit => replayLog l - t.amount := by
  unfold replayLog
  rw [List.foldl_append]
  rcases t with ⟨u, ty, a, d⟩
  cases ty <;> rfl

/-- Each wallet operation preserves the ledger invariant. -/
theorem walletLedgerInv_apply (st : Wallet × List WalletTransaction) (op : WalletOp)
    (h : walletLedgerInv st) : walletLedgerInv (applyWalletOp st op) := by
  obtain ⟨w, log⟩ := st
  obtain ⟨h1, h2⟩ := h
  cases op with
  | add a d =>
      refine ⟨?_, ?_⟩
      · show w.balance + a = w.total_earned + a - w.total_spent
        rw [h1]; ring
      · show replayLog (log ++
          [{ wallet_user := w.user, transaction_type := .credit, amount := a,
             description := d }]) = w.balance + a
        rw [replayLog_append]
        show replayLog log + a = w.balance + a
        rw [h2]
  | deduct a d =>
      by_cases hc : w.balance ≥ a
      · have happ : applyWalletOp (w, log) (.deduct a d) =
            ({ w with balance := w.balance - a, total_spent := w.total_spent + a },
             log ++ [{ wallet_user := w.user, transaction_type := .debit, amount := a,
                       description := d }]) := by
          simp [applyWalletOp, Wallet.deduct_balance, if_pos hc]
        rw [happ]
        refine ⟨?_, ?_⟩
        · show w.balance - a = w.total_earned - (w.total_spent + a)
          rw [h1]; ring
        · show replayLog (log ++
            [{ wallet_user := w.user, transaction_type := .debit, amount := a,
               description := d }]) = w.balance - a
          rw [replayLog_append]
          show replayLog log - a = w.balance - a
          rw [h2]
      · have happ : applyWalletOp (w, log) (.deduct a d) = (w, log) := by
          simp [applyWalletOp, Wallet.deduct_balance, if_neg hc]
        rw [happ]
        exact ⟨h1, h2⟩

/-- C6: from a zero wallet with an empty log, any sequence of add_balance and
deduct_balance operations keeps balance = total_earned - total_spent, and
replaying the transaction log from zero reproduces the balance. -/
theorem wallet_ledger_invariant (u : Nat) (ops : List WalletOp) :
    (runWalletOps u ops).1.balance =
        (runWalletOps u ops).1.total_earned - (runWalletOps u ops).1.total_spent ∧
    replayLog (runWalletOps u ops).2 = (runWalletOps u ops).1.balance := by
  have main : ∀ (l : List WalletOp) (st : Wallet × List WalletTransaction),
      walletLedgerInv st → walletLedgerInv (l.foldl applyWalletOp st) := by
    intro l
    induction l with
    | nil => intro st h; exact h
    | cons op rest ih => intro st h; exact ih _ (walletLedgerInv_apply st op h)
  have init : walletLedgerInv
      (({ user := u, balance := 0, total_earned := 0, total_spent := 0 } : Wallet), []) := by
    constructor
    · norm_num
    · rfl
  exact main ops _ init

/-- C9: calculate_discount yields amount times value over 100 for percentage
discounts, capped by min with the cap when one is set (non-zero, per the
source's truthiness test; the zero case is the subject of the claim on
truthiness), and yields discount_value verbatim for fixed discounts, even
beyond the amount itself. -/
theorem calculate_discount_spec (d : Discount) (amount c : ℚ) :
    (d.discount_type = .percentage → d.max_discount_amount = none →
      d.calculate_discount amount = amount * d.discount_value / 100) ∧
    (d.discount_type = .percentage → d.max_discount_amount = some c → c ≠ 0 →
      d.calculate_discount amount = min (amount * d.discount_value / 100) c) ∧
    (d.discount_type = .fixed → d.calculate_discount amount = d.discount_value) := by
  refine ⟨?_, ?_, ?_⟩
  · intro ht hc
    simp [Discount.calculate_discount, ht, hc, optRatTruthy]
  · intro ht hc hne
    simp [Discount.calculate_discount, ht, hc, optRatTruthy, hne]
  · intro ht
    simp [Discount.calculate_discount, ht]

/-- Witness for C9: 20 percent of 1000 is 200 uncapped, 150 with a 150 cap,
and a fixed 50 code on a 30 amount still yields 50. -/
theorem calculate_discount_spec_witness :
    wPerc.calculate_discount 1000 = 200 ∧
    wPercCap.calculate_discount 1000 = 150 ∧
    wFixed50.calculate_discount 30 = 50 := by
  refine ⟨?_, ?_, ?_⟩
  · have h := (calculate_discount_spec wPerc 1000 0).1 rfl rfl
    rw [h]; norm_num [wPerc]
  · have h := (calculate_discount_spec wPercCap 1000 150).2.1 rfl rfl (by norm_num)
    rw [h]; norm_num [wPercCap, wPerc, min_def]
  · have h := (calculate_discount_spec wFixed50 30 0).2.2 rfl
    rw [h]; norm_num [wFixed50, wPerc]

/-- C10: a limit stored as 0 is treated as absent because the source tests
Python truthiness: is_valid accepts an active in-window discount with
max_uses = 0 whatever times_used is, and calculate_discount applies no cap
when max_discount_amount = 0. -/
theorem zero_limits_treated_as_absent :
    (∀ (d : Discount) (now : Int), d.status = .active → d.valid_from ≤ now →
        now ≤ d.valid_until → d.max_uses = some 0 → d.is_valid now = true) ∧
    (∀ (d : Discount) (amount : ℚ), d.discount_type = .percentage →
        d.max_discount_amount = some 0 →
        d.calculate_discount amount = amount * d.discount_value / 100) := by
  constructor
  · intro d now hact h1 h2 hmu
    have hnl1 : ¬ now < d.valid_from := not_lt.mpr h1
    have hnl2 : ¬ now > d.valid_until := not_lt.mpr h2
    simp [Discount.is_valid, hact, hmu, optIntTruthy, hnl1, hnl2]
  · intro d amount ht hc
    simp [Discount.calculate_discount, ht, hc, optRatTruthy]

/-- Witness for C10: a discount with max_uses = 0 already used 5 times is
still valid, and a 20 percent discount with a 0 cap returns the uncapped
200 on 1000. -/
theorem zero_limits_treated_as_absent_witness :
    wZeroUses.is_valid 5 = true ∧ wZeroCap.calculate_discount 1000 = 200 := by
  constructor
  · exact zero_limits_treated_as_absent.1 wZeroUses 5 rfl
      (by norm_num [wZeroUses, wPerc]) (by norm_num [wZeroUses, wPerc]) rfl
  · have h := zero_limits_treated_as_absent.2 wZeroCap 1000 rfl rfl
    rw [h]; norm_num [wZeroCap, wPerc]

/-- C2 counterexample: ship, invoked by the seller on a pending order that
was never confirmed, succeeds and mutates the order to shipped instead of
failing with an InvalidStateTransition error. -/
theorem ship_on_pending_succeeds_counterexample :
    okValue (OrderViewSet.ship 2 7 none none wOrder) =
      some { wOrder with status := .shipped, shipped_at := some 7 } ∧
    wOrder.status = .pending ∧
    ({ wOrder with status := .shipped, shipped_at := some 7 } : Order) ≠ wOrder := by
  refine ⟨rfl, rfl, fun h => ?_⟩
  have hst := congrArg Order.status h
  simp [wOrder] at hst

/-- C2 amended: only confirm and cancel validate the source state, at the
view layer, answering a plain HTTP 400 error (no InvalidStateTransition type
exists) and leaving the order unmutated; ship and deliver perform no source
state validation at all and transition from any status. -/
theorem transition_guards_amended (user now : Nat) (tn tu : Option String) (o : Order) :
    (o.buyer = user → o.status ≠ .pending →
      OrderViewSet.confirm user now o = .error .badRequest) ∧
    ((o.buyer = user ∨ o.seller = user) → o.status ≠ .pending → o.status ≠ .confirmed →
      OrderViewSet.cancel user now o = .error .badRequest) ∧
    (o.seller = user →
      OrderViewSet.ship user now tn tu o = .ok (Order.mark_as_shipped now tn tu o)) ∧
    (o.buyer = user → OrderViewSet.deliver user now o = .ok (o.mark_as_delivered now)) := by
  refine ⟨?_, ?_, ?_, ?_⟩
  · intro hb hs
    simp [OrderViewSet.confirm, hb, hs]
  · intro hbs h1 h2
    rcases hbs with hb | hs
    · simp [OrderViewSet.cancel, hb, h1, h2]
    · simp [OrderViewSet.cancel, hs, h1, h2]
  · intro hs
    simp [OrderViewSet.ship, hs]
  · intro hb
    simp [OrderViewSet.deliver, hb]

/-- Witness for C2 amended: confirm on a confirmed order and cancel on a
delivered order answer 400; ship and deliver go through for the right
actors. -/
theorem transition_guards_amended_witness :
    OrderViewSet.confirm 1 7 wConfirmedOrder = .error .badRequest ∧
    OrderViewSet.cancel 1 7 wDeliveredOrder = .error .badRequest ∧
    OrderViewSet.ship 2 7 (some "TRK") none wConfirmedOrder =
      .ok (Order.mark_as_shipped 7 (some "TRK") none wConfirmedOrder) ∧
    OrderViewSet.deliver 1 7 wShippedOrder = .ok (wShippedOrder.mark_as_delivered 7) :=
  ⟨(transition_guards_amended 1 7 none none wConfirmedOrder).1 rfl (by decide),
   (transition_guards_amended 1 7 none none wDeliveredOrder).2.1 (Or.inl rfl)
     (by decide) (by decide),
   (transition_guards_amended 2 7 (some "TRK") none wConfirmedOrder).2.2.1 rfl,
   (transition_guards_amended 1 7 none none wShippedOrder).2.2.2 rfl⟩

/-- Replacing the first entry that satisfies p, by an image that still
satisfies p, is what a subsequent find? with p returns. -/
theorem find?_replaceFirst {α : Type} (p : α → Bool) (f : α → α) (l : List α) (x : α)
    (hx : l.find? p = some x) (hf : p (f x) = true) :
    (replaceFirst p f l).find? p = some (f x) := by
  induction l with
  | nil => simp at hx
  | cons a as ih =>
      cases hpa : p a with
      | true =>
          have hax : a = x := by
            rw [List.find?_cons_of_pos as hpa] at hx
            exact Option.some.inj hx
          subst hax
          show List.find? p (if p a = true then f a :: as else a :: replaceFirst p f as) =
            some (f a)
          rw [if_pos hpa]
          exact List.find?_cons_of_pos as hf
      | false =>
          have hneg : ¬ p a = true := by simp [hpa]
          rw [List.find?_cons_of_neg as hneg] at hx
          show List.find? p (if p a = true then f a :: as else a :: replaceFirst p f as) =
            some (f x)
          rw [if_neg hneg, List.find?_cons_of_neg _ hneg]
          exact ih hx

/-- C4: the success handler fails with the order-not-found error and touches
nothing when no order matches the callback's transaction id; with an order
found it consults the validation oracle, and only a successful VALID verdict
makes it complete the payment (status, raw payload, processed_at, val_id)
and confirm the order; any other verdict leaves the store untouched. -/
theorem success_callback_guarded (validate : Option String → Bool × String) (now : Nat)
    (data : CallbackData) (s : Store) :
    (s.orders.find? (fun o => data.tran_id == some o.order_number) = none →
      handle_payment_success validate now data s = (.orderNotFound, s)) ∧
    (∀ o, s.orders.find? (fun x => data.tran_id == some x.order_number) = some o →
      ¬((validate data.val_id).1 = true ∧ (validate data.val_id).2 = "VALID") →
      handle_payment_success validate now data s = (.validationFailed, s)) ∧
    (∀ o p, s.orders.find? (fun x => data.tran_id == some x.order_number) = some o →
      (validate data.val_id).1 = true → (validate data.val_id).2 = "VALID" →
      s.payments.find? (fun x => x.order_number == o.order_number) = some p →
      (handle_payment_success validate now data s).1 = .processed o.order_number ∧
      (handle_payment_success validate now data s).2.payments.find?
          (fun x => x.order_number == o.order_number) =
        some { p with status := .completed, transaction_id := data.val_id,
                      gateway_response := some data, processed_at := some now } ∧
      (handle_payment_success validate now data s).2.orders.find?
          (fun x => data.tran_id == some x.order_number) =
        some (o.mark_as_confirmed now)) := by
  refine ⟨?_, ?_, ?_⟩
  · intro h
    unfold handle_payment_success
    rw [h]
  · intro o ho hnv
    unfold handle_payment_success
    rw [ho]
    dsimp only
    rw [if_neg hnv]
  · intro o p ho hv1 hv2 hp
    unfold handle_payment_success
    rw [ho]
    dsimp only
    rw [if_pos ⟨hv1, hv2⟩, hp]
    dsimp only
    refine ⟨rfl, ?_, ?_⟩
    · apply find?_replaceFirst _ _ _ _ hp
      have hkeep := List.find?_some hp
      exact hkeep
    · apply find?_replaceFirst _ _ _ _ ho
      have hkeep := List.find?_some ho
      exact hkeep

/-- Witness for C4: an unknown transaction id yields the not-found error
with the store untouched, a rejected validation yields the validation error
with the store untouched, and a VALID validation completes the payment and
confirms the order. -/
theorem success_callback_guarded_witness :
    handle_payment_success wValidate 9 wBadCallback wStore = (.orderNotFound, wStore) ∧
    handle_payment_success wFailValidate 9 wCallback wStore = (.validationFailed, wStore) ∧
    (handle_payment_success wValidate 9 wCallback wStore).1 = .processed "ORD-1" ∧
    (handle_payment_success wValidate 9 wCallback wStore).2.payments.find?
        (fun x => x.order_number == "ORD-1") =
      some { wPayment with
               status := .completed, transaction_id := some "VAL-1",
               gateway_response := some wCallback, processed_at := some 9 } ∧
    (handle_payment_success wValidate 9 wCallback wStore).2.orders.find?
        (fun x => wCallback.tran_id == some x.order_number) =
      some (wOrder.mark_as_confirmed 9) :=
  ⟨(success_callback_guarded wValidate 9 wBadCallback wStore).1 rfl,
   (success_callback_guarded wFailValidate 9 wCallback wStore).2.1 wOrder rfl
     (by simp [wFailValidate]),
   ((success_callback_guarded wValidate 9 wCallback wStore).2.2 wOrder wPayment
       rfl rfl rfl rfl).1,
   ((success_callback_guarded wValidate 9 wCallback wStore).2.2 wOrder wPayment
       rfl rfl rfl rfl).2.1,
   ((success_callback_guarded wValidate 9 wCallback wStore).2.2 wOrder wPayment
       rfl rfl rfl rfl).2.2⟩

/-- C3 amended: handle_payment_success never touches any wallet row or
wallet transaction row on any path, so completing a payment credits no
seller wallet and creates no WalletTransaction. -/
theorem success_callback_credits_no_wallet (validate : Option String → Bool × String)
    (now : Nat) (data : CallbackData) (s : Store) :
    (handle_payment_success validate now data s).2.wallets = s.wallets ∧
    (handle_payment_success validate now data s).2.wallet_txns = s.wallet_txns := by
  unfold handle_payment_success
  cases hf : s.orders.find? (fun o => data.tran_id == some o.order_number) with
  | none => exact ⟨rfl, rfl⟩
  | some o =>
      dsimp only
      by_cases hv : (validate data.val_id).1 = true ∧ (validate data.val_id).2 = "VALID"
      · rw [if_pos hv]
        cases hp : s.payments.find? (fun p => p.order_number == o.order_number) with
        | none => exact ⟨rfl, rfl⟩
        | some p => exact ⟨rfl, rfl⟩
      · rw [if_neg hv]
        exact ⟨rfl, rfl⟩

/-- C3 counterexample: a fully validated success callback on the 365-total
fixture order reports success, yet the seller's wallet balance stays 0 and
the number of wallet transactions stays 0, not 1. -/
theorem success_wallet_credit_counterexample :
    (handle_payment_success wValidate 9 wCallback wStore).1 = .processed "ORD-1" ∧
    (handle_payment_success wValidate 9 wCallback wStore).2.wallets =
      [{ user := 2, balance := 0, total_earned := 0, total_spent := 0 }] ∧
    (handle_payment_success wValidate 9 wCallback wStore).2.wallet_txns = [] ∧
    wOrder.total_amount = 365 :=
  ⟨rfl, rfl, rfl, rfl⟩

/-- C7 amended: refund creation only checks that the requester is the buyer
and that a payment exists; the refund row is saved with whatever
refund_amount was submitted, with no comparison against the order total or
prior refunds. -/
theorem refund_create_unbounded (user : Nat) (req : RefundCreateRequest) (s : Store)
    (order : Order)
    (hord : s.orders.find? (fun o => o.order_number == req.order) = some order)
    (hbuyer : order.buyer = user)
    (hpay : (s.payments.find? (fun p => p.order_number == order.order_number)).isSome =
      true) :
    RefundViewSet.create user req s =
      .ok ({ id := s.refunds.length, order_number := order.order_number,
             refund_reason := req.refund_reason, refund_amount := req.refund_amount,
             refund_percentage := req.refund_percentage, status := .pending,
             reason_description := req.reason_description, approved_at := none,
             completed_at := none },
           { s with refunds := s.refunds ++
               [{ id := s.refunds.length, order_number := order.order_number,
                  refund_reason := req.refund_reason, refund_amount := req.refund_amount,
                  refund_percentage := req.refund_percentage, status := .pending,
                  reason_description := req.reason_description, approved_at := none,
                  completed_at := none }] }) := by
  obtain ⟨p, hp⟩ := Option.isSome_iff_exists.mp hpay
  unfold RefundViewSet.create
  rw [hord]
  dsimp only
  rw [if_neg (by simp [hbuyer]), hp]

/-- Witness for C7 amended: the 1000000 refund request against the 365-total
fixture order is accepted verbatim. -/
theorem refund_create_unbounded_witness :
    RefundViewSet.create 1 wRefundReq wStore =
      .ok (wOverRefund, { wStore with refunds := [wOverRefund] }) :=
  refund_create_unbounded 1 wRefundReq wStore wOrder rfl rfl rfl

/-- C7 counterexample: the accepted 1000000 refund makes the order's refund
sum 1000000, far above its 365 total, so the at-creation bound claimed by
the spec does not exist. -/
theorem refund_overdraw_accepted_counterexample :
    okValue (RefundViewSet.create 1 wRefundReq wStore) =
      some (wOverRefund, { wStore with refunds := [wOverRefund] }) ∧
    refundSum { wStore with refunds := [wOverRefund] } "ORD-1" = 1000000 ∧
    wOrder.total_amount = 365 ∧ (365 : ℚ) < 1000000 := by
  refine ⟨rfl, ?_, rfl, by norm_num⟩
  norm_num [refundSum, wOverRefund, wStore]

/-- C8 amended: completing a refund (as staff) marks the refund completed
with a timestamp and sets the associated order's status to refunded, but
issues no wallet debit: wallet rows and the wallet transaction log are
returned unchanged, and no insufficient-balance failure path exists. -/
theorem complete_refund_no_wallet_debit (now rid : Nat) (s : Store) (r : Refund)
    (hr : s.refunds.find? (fun x => x.id == rid) = some r) :
    ∃ s2, RefundViewSet.complete true now rid s = .ok s2 ∧
      s2.wallets = s.wallets ∧
      s2.wallet_txns = s.wallet_txns ∧
      s2.refunds.find? (fun x => x.id == rid) =
        some { r with status := .completed, completed_at := some now } ∧
      ∀ o, s.orders.find? (fun x => x.order_number == r.order_number) = some o →
        s2.orders.find? (fun x => x.order_number == r.order_number) =
          some { o with status := .refunded } := by
  have hcomp : RefundViewSet.complete true now rid s = .ok
      { s with
          refunds := replaceFirst (fun x => x.id == rid)
            (fun x => { x with status := .completed, completed_at := some now }) s.refunds,
          orders := replaceFirst (fun o => o.order_number == r.order_number)
            (fun o => { o with status := .refunded }) s.orders } := by
    unfold RefundViewSet.complete
    rw [hr]
    dsimp only
    rw [if_neg (by simp)]
  refine ⟨_, hcomp, rfl, rfl, ?_, ?_⟩
  · apply find?_replaceFirst _ _ _ _ hr
    have hkeep := List.find?_some hr
    exact hkeep
  · intro o ho
    apply find?_replaceFirst _ _ _ _ ho
    have hkeep := List.find?_some ho
    exact hkeep

/-- Witness for C8 amended at the 150-refund fixture. -/
theorem complete_refund_no_wallet_debit_witness :
    RefundViewSet.complete true 9 0 wRefStore = .ok wRefStoreAfter ∧
    wRefStoreAfter.wallets = wRefStore.wallets ∧
    wRefStoreAfter.wallet_txns = wRefStore.wallet_txns ∧
    wRefStoreAfter.refunds.find? (fun x => x.id == 0) =
      some { wApprovedRefund with status := .completed, completed_at := some 9 } ∧
    wRefStoreAfter.orders.find? (fun x => x.order_number == "ORD-1") =
      some { wConfirmedOrder with status := .refunded } := by
  obtain ⟨s2, h1, h2, h3, h4, h5⟩ :=
    complete_refund_no_wallet_debit 9 0 wRefStore wApprovedRefund rfl
  have hs2 : s2 = wRefStoreAfter := by
    have he : (Except.ok s2 : Except ApiError Store) = .ok wRefStoreAfter :=
      h1.symm.trans (by rfl)
    exact Except.ok.inj he
  subst hs2
  exact ⟨h1, h2, h3, h4, h5 wConfirmedOrder rfl⟩

/-- C8 counterexample: completing the approved 150 refund against the
500-balance seller wallet sets the order to refunded but leaves the wallet
at 500 with an empty transaction log: no 150 debit is issued. -/
theorem refund_completion_no_debit_counterexample :
    RefundViewSet.complete true 9 0 wRefStore = .ok wRefStoreAfter ∧
    wRefStoreAfter.orders = [{ wConfirmedOrder with status := .refunded }] ∧
    wRefStoreAfter.wallets = [wSellerWallet500] ∧
    wSellerWallet500.balance = 500 ∧
    wRefStoreAfter.wallet_txns = [] ∧
    wApprovedRefund.refund_amount = 150 :=
  ⟨rfl, rfl, rfl, rfl, rfl, rfl⟩

end CarCo
